import Mathlib

set_option maxRecDepth 100000

/-!
Verification development for the multi-container DevOps agent.

This file shallowly embeds the deployment orchestration and verification
engine of the repository: the 8-point post-deployment test suite
(src/tools/testing_tools.py, run_post_deploy_tests), the Temporal
workflows (src/temporal/workflows.py: DeployWorkflow, RollbackWorkflow,
HealthMonitorWorkflow) and the compose specification compiler
(src/tools/compose_tools.py, compose_generate), and proves or refutes
the specification's claims about them.

Python strings are modelled by Lean String; Python substring tests
(the "x in y" operator) by an executable containment check on the
underlying character lists; subprocess and file-system interaction is
abstracted into explicit environment records whose fields stand for
the observable results of the docker commands the code issues.
-/

namespace MultiContainer

/- ── Python string primitives ────────────────────────────────────── -/

/-- Model of Python's str.startswith on character lists. -/
def startsWithChars : List Char → List Char → Bool
  | [], _ => true
  | _ :: _, [] => false
  | a :: as, b :: bs => a == b && startsWithChars as bs

/-- Model of Python's substring operator (needle in haystack) on character lists. -/
def containsChars (n : List Char) : List Char → Bool
  | [] => n.isEmpty
  | c :: rest => startsWithChars n (c :: rest) || containsChars n rest

/-- Model of Python's substring operator on strings: needle in haystack. -/
def subB (needle haystack : String) : Bool :=
  containsChars needle.data haystack.data

/-- Model of Python's str.upper (ASCII-relevant part). -/
def upperStr (s : String) : String :=
  ⟨s.data.map Char.toUpper⟩

/-- Model of Python's str.lower (ASCII-relevant part). -/
def lowerStr (s : String) : String :=
  ⟨s.data.map Char.toLower⟩

/-- Model of Python's sep.join(lines). -/
def strJoin (sep : String) : List String → String
  | [] => ""
  | [l] => l
  | l :: ls => l ++ sep ++ strJoin sep ls

/-- Model of Python's string slicing s[:n]. -/
def takeChars (n : Nat) (s : String) : String :=
  ⟨s.data.take n⟩

/-- Model of Python's str.split on a one-character separator, over the
character list: splitting never yields the empty list. -/
def splitChars (sep : Char) : List Char → List (List Char)
  | [] => [[]]
  | c :: rest =>
      match splitChars sep rest with
      | [] => [[]]
      | g :: gs => if c == sep then [] :: g :: gs else (c :: g) :: gs

/-- Model of Python's str.split(sep) for a one-character separator. -/
def splitStr (sep : Char) (s : String) : List String :=
  (splitChars sep s.data).map (fun l => ⟨l⟩)

/- ── Lemmas about the string primitives ──────────────────────────── -/

theorem startsWithChars_append (n s t : List Char)
    (h : startsWithChars n s = true) : startsWithChars n (s ++ t) = true := by
  induction n generalizing s with
  | nil => simp [startsWithChars]
  | cons a as ih =>
    cases s with
    | nil => simp [startsWithChars] at h
    | cons b bs =>
      simp only [startsWithChars, Bool.and_eq_true] at h
      simp only [List.cons_append, startsWithChars, Bool.and_eq_true]
      exact ⟨h.1, ih bs h.2⟩

theorem containsChars_append_right (n s t : List Char)
    (h : containsChars n s = true) : containsChars n (s ++ t) = true := by
  induction s with
  | nil =>
    simp only [containsChars, List.isEmpty_iff] at h
    subst h
    cases t with
    | nil => simp [containsChars]
    | cons c cs => simp [containsChars, startsWithChars]
  | cons c cs ih =>
    simp only [containsChars, Bool.or_eq_true] at h
    rcases h with h | h
    · simp only [List.cons_append, containsChars, Bool.or_eq_true]
      exact Or.inl (startsWithChars_append _ _ _ h)
    · simp only [List.cons_append, containsChars, Bool.or_eq_true]
      exact Or.inr (ih h)

theorem containsChars_append_left (n s t : List Char)
    (h : containsChars n s = true) : containsChars n (t ++ s) = true := by
  induction t with
  | nil => simpa using h
  | cons c cs ih =>
    simp only [List.cons_append, containsChars, Bool.or_eq_true]
    exact Or.inr ih

theorem startsWithChars_map (f : Char → Char) (n s : List Char)
    (h : startsWithChars n s = true) :
    startsWithChars (n.map f) (s.map f) = true := by
  induction n generalizing s with
  | nil => simp [startsWithChars]
  | cons a as ih =>
    cases s with
    | nil => simp [startsWithChars] at h
    | cons b bs =>
      simp only [startsWithChars, Bool.and_eq_true, beq_iff_eq] at h
      simp only [List.map_cons, startsWithChars, Bool.and_eq_true, beq_iff_eq]
      exact ⟨by rw [h.1], ih bs h.2⟩

theorem containsChars_map (f : Char → Char) (n s : List Char)
    (h : containsChars n s = true) :
    containsChars (n.map f) (s.map f) = true := by
  induction s with
  | nil =>
    simp only [containsChars, List.isEmpty_iff] at h
    subst h
    simp [containsChars]
  | cons c cs ih =>
    simp only [containsChars, Bool.or_eq_true] at h
    simp only [List.map_cons, containsChars, Bool.or_eq_true]
    rcases h with h | h
    · exact Or.inl (startsWithChars_map f _ _ h)
    · exact Or.inr (ih h)

theorem subB_append_right (n s t : String) (h : subB n s = true) :
    subB n (s ++ t) = true := by
  simpa [subB, String.data_append] using
    containsChars_append_right n.data s.data t.data (by simpa [subB] using h)

theorem subB_append_left (n s t : String) (h : subB n s = true) :
    subB n (t ++ s) = true := by
  simpa [subB, String.data_append] using
    containsChars_append_left n.data s.data t.data (by simpa [subB] using h)

/-- Containment of a line propagates to the newline join of any list of
lines that has this line as a member. -/
theorem subB_strJoin (sep needle l : String) (lines : List String)
    (hm : l ∈ lines) (h : subB needle l = true) :
    subB needle (strJoin sep lines) = true := by
  induction lines with
  | nil => cases hm
  | cons x xs ih =>
    cases xs with
    | nil =>
      rcases List.mem_singleton.mp hm with rfl
      simpa [strJoin] using h
    | cons y ys =>
      rcases List.mem_cons.mp hm with rfl | hm2
      · show subB needle (l ++ sep ++ strJoin sep (y :: ys)) = true
        exact subB_append_right _ _ _ (subB_append_right _ _ _ h)
      · show subB needle (x ++ sep ++ strJoin sep (y :: ys)) = true
        exact subB_append_left _ _ _ (ih hm2)

theorem subB_upper (needle s : String) (hfix : needle.data.map Char.toUpper = needle.data)
    (h : subB needle s = true) : subB needle (upperStr s) = true := by
  have := containsChars_map Char.toUpper needle.data s.data (by simpa [subB] using h)
  rw [hfix] at this
  simpa [subB, upperStr] using this

/- ── Verification engine: src/tools/testing_tools.py ─────────────── -/

/-- Verdict of a single check, as emitted by run_post_deploy_tests. -/
inductive Status where
  | pass
  | warn
  | fail
deriving DecidableEq, Repr

/-- Final health status of one container as observed by the polling loop of
check 2 (docker inspect of .State.Health.Status, polled up to 12 times):
the loop breaks on the first healthy, no-healthcheck or unhealthy
observation and otherwise exhausts its 60-second budget. -/
inductive HealthObs where
  | healthy
  | noHealthcheck
  | unhealthy
  | timedOut
deriving DecidableEq, Repr

/-- Result of the TCP connect attempt of check 3 against one published host
port (socket.connect_ex on 127.0.0.1). -/
inductive PortObs where
  | opened
  | closed
  | errored
deriving DecidableEq, Repr

/-- Result of the ping probes of check 4 from the first running container to
another container: reachable under its full name, reachable only under the
short name fallback, or unreachable either way. -/
inductive PingObs where
  | reachable
  | reachableShort
  | unreachable
deriving DecidableEq, Repr

/-- Observable behaviour of the docker CLI during one run of
run_post_deploy_tests. Each field stands for the parsed result of the
corresponding subprocess call in src/tools/testing_tools.py. -/
structure TestEnv where
  /-- Service names parsed from the json listing of docker compose ps,
  used for the report header (the expected_services argument is empty at
  every call site of the repository, so the auto-detected list is used). -/
  psServices : List String
  /-- Container names listed by docker compose ps (all states). -/
  allContainers : List String
  /-- Container names listed by docker compose ps --status running. -/
  runningContainers : List String
  /-- Final health observation per running container (check 2). -/
  health : String → HealthObs
  /-- Parsed host-port publications with connect outcome per container (check 3). -/
  ports : String → List (String × PortObs)
  /-- Ping probe outcome per non-first running container (check 4). -/
  ping : String → PingObs
  /-- Mount destinations from docker inspect per container (check 5). -/
  mounts : String → List String
  /-- Whether the write-read-delete round trip succeeds for a mount (check 5). -/
  writable : String → String → Bool
  /-- docker exec env result per container: some n = n lines of output,
  none = command failed (check 6). -/
  envRead : String → Option Nat
  /-- Combined stdout and stderr of docker logs --tail 20 per container (check 7). -/
  logs : String → String
  /-- Parsed CPU and memory percentages from docker stats per container;
  none when the command fails or the output is unparsable (check 8). -/
  stats : String → Option (ℚ × ℚ)

/-- Containers that appear in the full ps listing but not in the running
listing (check 1). -/
def notRunning (env : TestEnv) : List String :=
  env.allContainers.filter (fun c => !env.runningContainers.contains c)

/-- Check 1 — Container Running Test. -/
def check1 (env : TestEnv) : Status × String :=
  if notRunning env = [] ∧ env.runningContainers ≠ [] then
    (.pass, "[PASS] Container Running Test   : ALL " ++
      toString env.runningContainers.length ++ " running")
  else if notRunning env ≠ [] then
    (.fail, "[FAIL] Container Running Test   : " ++
      strJoin ", " (notRunning env) ++ " not running")
  else
    (.fail, "[FAIL] Container Running Test   : No containers found")

/-- Per-container health strings accumulated by the polling loop of check 2,
including the guard that suppresses a timeout entry when the container's
name followed by an equals sign already occurs in the joined results. -/
def healthResults (env : TestEnv) : List String :=
  env.runningContainers.foldl (fun acc c =>
    match env.health c with
    | .healthy => acc ++ [c ++ "=healthy"]
    | .noHealthcheck => acc ++ [c ++ "=no healthcheck"]
    | .unhealthy => acc ++ [c ++ "=unhealthy"]
    | .timedOut =>
        if subB (c ++ "=") (strJoin " " acc) then acc
        else acc ++ [c ++ "=timeout"]) []

/-- Check 2 — Health Check Test. -/
def check2 (env : TestEnv) : Status × String :=
  let hr := healthResults env
  let unhealthyL := hr.filter (fun h => subB "unhealthy" h || subB "timeout" h)
  let noHc := hr.filter (fun h => subB "no healthcheck" h)
  if unhealthyL ≠ [] then
    (.fail, "[FAIL] Health Check Test        : " ++ strJoin ", " hr)
  else if noHc ≠ [] then
    (.warn, "[WARN] Health Check Test        : " ++ strJoin ", " hr)
  else
    (.pass, "[PASS] Health Check Test        : " ++ strJoin ", " hr)

/-- Port result strings of check 3, one per published host port. -/
def portResults (env : TestEnv) : List String :=
  (env.runningContainers.map (fun c =>
    (env.ports c).map (fun p =>
      p.1 ++ "=" ++ match p.2 with
        | .opened => "open"
        | .closed => "closed"
        | .errored => "error"))).flatten

/-- Check 3 — Port Binding Test. -/
def check3 (env : TestEnv) : Status × String :=
  let pr := portResults env
  let failures := pr.filter (fun p => subB "closed" p || subB "error" p)
  if pr ≠ [] ∧ failures = [] then
    (.pass, "[PASS] Port Binding Test        : " ++ strJoin ", " pr)
  else if failures ≠ [] then
    (.fail, "[FAIL] Port Binding Test        : " ++ strJoin ", " pr)
  else
    (.warn, "[WARN] Port Binding Test        : No port mappings found")

/-- Short-name fallback of check 4: the part after the last dash. -/
def shortName (s : String) : String :=
  if subB "-" s then (splitStr '-' s).getLastD s else s

/-- Connectivity result strings of check 4, one per non-first running container. -/
def connectivityResults (env : TestEnv) : List String :=
  env.runningContainers.tail.map (fun other =>
    match env.ping other with
    | .reachable => other ++ "=reachable"
    | .reachableShort => shortName other ++ "=reachable"
    | .unreachable => other ++ "=unreachable")

/-- Check 4 — Inter-Service Connectivity Test. -/
def check4 (env : TestEnv) : Status × String :=
  if env.runningContainers.length > 1 then
    let cr := connectivityResults env
    let unreachableL := cr.filter (fun c => subB "unreachable" c)
    if unreachableL ≠ [] then
      (.warn, "[WARN] Connectivity Test        : " ++ strJoin ", " cr)
    else
      (.pass, "[PASS] Connectivity Test        : " ++ strJoin ", " cr)
  else
    (.pass, "[PASS] Connectivity Test        : Single service — skipped")

/-- Volume result strings of check 5: a write-read-delete round trip on the
first two mounts of each running container. -/
def volumeResults (env : TestEnv) : List String :=
  (env.runningContainers.map (fun c =>
    ((env.mounts c).take 2).map (fun m =>
      if env.writable c m then m ++ "=writable" else m ++ "=not_writable"))).flatten

/-- Check 5 — Volume Mount Test. -/
def check5 (env : TestEnv) : Status × String :=
  let vr := volumeResults env
  if vr ≠ [] then
    let notWritable := vr.filter (fun v => subB "not_writable" v)
    if notWritable ≠ [] then
      (.warn, "[WARN] Volume Mount Test        : " ++ strJoin ", " vr)
    else
      (.pass, "[PASS] Volume Mount Test        : " ++ strJoin ", " vr)
  else
    (.pass, "[PASS] Volume Mount Test        : No volumes to test")

/-- Environment-variable result strings of check 6. -/
def envResults (env : TestEnv) : List String :=
  env.runningContainers.map (fun c =>
    match env.envRead c with
    | some n => c ++ "=" ++ toString n ++ " vars"
    | none => c ++ "=cannot read env")

/-- Check 6 — Environment Variable Test. -/
def check6 (env : TestEnv) : Status × String :=
  let er := envResults env
  let failures := er.filter (fun e => subB "cannot" e)
  if failures ≠ [] then
    (.warn, "[WARN] Environment Variable Test : " ++ strJoin ", " er)
  else
    (.pass, "[PASS] Environment Variable Test : " ++ strJoin ", " er)

/-- Error keywords scanned for by check 7. -/
def errorKeywords : List String :=
  ["panic", "fatal", "error", "exception", "refused", "timeout"]

/-- Log issue strings of check 7, one per container whose last log lines
contain at least one of the error keywords. -/
def logIssues (env : TestEnv) : List String :=
  env.runningContainers.filterMap (fun c =>
    let output := lowerStr (env.logs c)
    let found := errorKeywords.filter (fun kw => subB kw output)
    if found = [] then none
    else some (c ++ ": found [" ++ strJoin ", " found ++ "]"))

/-- Check 7 — Log Output Test. -/
def check7 (env : TestEnv) : Status × String :=
  let li := logIssues env
  if li ≠ [] then
    (.warn, "[WARN] Log Output Test          : " ++ strJoin "; " li)
  else
    (.pass, "[PASS] Log Output Test          : No error keywords in startup logs")

/-- Resource warning strings of check 8: CPU above 50 percent or memory
above 70 percent. -/
def resourceWarnings (env : TestEnv) : List String :=
  (env.runningContainers.map (fun c =>
    match env.stats c with
    | none => []
    | some (cpu, mem) =>
        (if cpu > 50 then [c ++ ": CPU=" ++ toString cpu ++ "%"] else []) ++
        (if mem > 70 then [c ++ ": MEM=" ++ toString mem ++ "%"] else []))).flatten

/-- Check 8 — Resource Baseline Test. -/
def check8 (env : TestEnv) : Status × String :=
  let rw := resourceWarnings env
  if rw ≠ [] then
    (.warn, "[WARN] Resource Baseline Test   : " ++ strJoin ", " rw)
  else
    (.pass, "[PASS] Resource Baseline Test   : All containers within normal limits")

/-- The eight check statuses, in the fixed order they are run and reported. -/
def checkStatuses (env : TestEnv) : List Status :=
  [(check1 env).1, (check2 env).1, (check3 env).1, (check4 env).1,
   (check5 env).1, (check6 env).1, (check7 env).1, (check8 env).1]

/-- Aggregate verdict of a test report. -/
inductive Verdict where
  | failed
  | acceptedWithWarnings
  | successful
deriving DecidableEq, Repr

/-- Final verdict computed from the three counters, exactly as at the end
of run_post_deploy_tests. -/
def verdictOfCounts (passCount warnCount failCount : Nat) : Verdict :=
  if failCount > 0 then .failed
  else if warnCount > 0 then .acceptedWithWarnings
  else .successful

/-- Text of the aggregate verdict as written into the report. -/
def verdictText : Verdict → String
  | .failed => "FAILED — rollback recommended"
  | .acceptedWithWarnings => "ACCEPTED WITH WARNINGS"
  | .successful => "SUCCESSFUL"

/-- Number of checks that took their PASS branch. -/
def passCount (env : TestEnv) : Nat := (checkStatuses env).count .pass

/-- Number of checks that took their WARN branch. -/
def warnCount (env : TestEnv) : Nat := (checkStatuses env).count .warn

/-- Number of checks that took their FAIL branch. -/
def failCount (env : TestEnv) : Nat := (checkStatuses env).count .fail

/-- Aggregate verdict of a run of the verification engine. -/
def reportVerdict (env : TestEnv) : Verdict :=
  verdictOfCounts (passCount env) (warnCount env) (failCount env)

/-- All lines of the test report, with the timestamp ts in every line
position where run_post_deploy_tests writes one and fp the file_path
argument. -/
def reportLines (env : TestEnv) (ts fp : String) : List String :=
  let tag := fun (s : String) => "[" ++ ts ++ "] " ++ s
  [tag "[TEST] ━━ DEPLOYMENT TEST REPORT ━━━━━━━━━━━━",
   tag ("[TEST] Compose File : " ++ fp),
   tag ("[TEST] Services     : " ++
     (if env.psServices ≠ [] then strJoin ", " env.psServices
      else "none detected")),
   tag "[TEST] ─────────────────────────────────────",
   tag (check1 env).2, tag (check2 env).2, tag (check3 env).2, tag (check4 env).2,
   tag (check5 env).2, tag (check6 env).2, tag (check7 env).2, tag (check8 env).2,
   tag "[TEST] ─────────────────────────────────────",
   tag ("[TEST] Result: " ++ toString (passCount env) ++ " PASS / " ++
     toString (warnCount env) ++ " WARN / " ++ toString (failCount env) ++ " FAIL"),
   tag ("[TEST] Deployment: " ++ verdictText (reportVerdict env)),
   tag "[TEST] ━━━━━━━━━━━━━━━━━━━━━━━━━━━━━━━━━━━━"]

/-- The full report string returned by run_post_deploy_tests: the newline
join of all report lines. -/
def fullReport (env : TestEnv) (ts fp : String) : String :=
  strJoin "\n" (reportLines env ts fp)

/- ── Temporal workflows: src/temporal/workflows.py ───────────────── -/

/-- Static description of one execute_activity invocation: activity name,
start-to-close timeout in seconds, optional retry-policy maximum attempts
and optional heartbeat timeout in seconds. -/
structure ActivityCall where
  name : String
  startToCloseSec : Nat
  retryMaximumAttempts : Option Nat := none
  heartbeatSec : Option Nat := none
deriving DecidableEq, Repr

/-- Step 1 of DeployWorkflow.run: validate_compose, 30s timeout,
RetryPolicy(maximum_attempts=2). -/
def validateCall : ActivityCall :=
  { name := "validate_compose", startToCloseSec := 30, retryMaximumAttempts := some 2 }

/-- Step 2 of DeployWorkflow.run: backup_compose, 30s timeout, no retry
policy argument. -/
def backupCall : ActivityCall :=
  { name := "backup_compose", startToCloseSec := 30 }

/-- Step 3 of DeployWorkflow.run: detect_conflicts, 30s timeout. -/
def detectConflictsCall : ActivityCall :=
  { name := "detect_conflicts", startToCloseSec := 30 }

/-- Step 4 of DeployWorkflow.run: deploy_compose, 5min timeout, 60s
heartbeat, RetryPolicy(maximum_attempts=2). -/
def deployCall : ActivityCall :=
  { name := "deploy_compose", startToCloseSec := 300,
    retryMaximumAttempts := some 2, heartbeatSec := some 60 }

/-- Step 5 of DeployWorkflow.run: run_tests, 3min timeout, 120s heartbeat. -/
def runTestsCall : ActivityCall :=
  { name := "run_tests", startToCloseSec := 180, heartbeatSec := some 120 }

/-- Notification helper of DeployWorkflow: send_notification, 10s timeout. -/
def notifyCall : ActivityCall :=
  { name := "send_notification", startToCloseSec := 10 }

/-- Activity results observed by one DeployWorkflow run. -/
structure DeployEnv where
  /-- Result string of validate_compose. -/
  validation : String
  /-- Result string of backup_compose. -/
  backupResult : String
  /-- Result string of detect_conflicts. -/
  conflicts : String
  /-- Result string of deploy_compose. -/
  deployResult : String
  /-- Result string of run_tests. -/
  testReport : String

/-- Terminal outcome of a DeployWorkflow run. -/
inductive DeployOutcome where
  | abortedValidation
  | abortedConflicts
  | rolledBackDeploy
  | rolledBackTests
  | succeeded
deriving DecidableEq, Repr

/-- Steps a workflow run can record, in invocation order. -/
inductive WfStep where
  | validate
  | backup
  | detectConflicts
  | deploy
  | runTests
  | childRollback
  | notify
  | teardown
  | deployBackup
deriving DecidableEq, Repr

/-- The condition on line 120 (and, identically, line 279) of workflows.py:
the report is classified as a test failure when its upper-cased text
contains FAIL and does not contain PASS anywhere. -/
def testsFailCond (report : String) : Bool :=
  subB "FAIL" (upperStr report) && !(subB "PASS" (upperStr report))

/-- Branch decisions of DeployWorkflow.run, in source order: validation
aborts on an ERROR or FAILED marker, the port check aborts on an OCCUPIED
marker in the upper-cased report or a warning sign, a failed deploy
triggers the rollback child workflow, failed tests are meant to as well,
otherwise the run succeeds. -/
def deployDecision (env : DeployEnv) : DeployOutcome :=
  if subB "ERROR" env.validation || subB "FAILED" env.validation then
    .abortedValidation
  else if subB "OCCUPIED" (upperStr env.conflicts) || subB "⚠" env.conflicts then
    .abortedConflicts
  else if subB "FAILED" env.deployResult || subB "ERROR" env.deployResult then
    .rolledBackDeploy
  else if testsFailCond env.testReport then
    .rolledBackTests
  else
    .succeeded

/-- Sequence of step invocations of one DeployWorkflow run, per branch. -/
def deployTrace (env : DeployEnv) : List WfStep :=
  match deployDecision env with
  | .abortedValidation => [.validate, .notify]
  | .abortedConflicts => [.validate, .backup, .detectConflicts, .notify]
  | .rolledBackDeploy =>
      [.validate, .backup, .detectConflicts, .deploy, .childRollback, .notify]
  | .rolledBackTests =>
      [.validate, .backup, .detectConflicts, .deploy, .runTests, .childRollback, .notify]
  | .succeeded =>
      [.validate, .backup, .detectConflicts, .deploy, .runTests, .notify]

/-- Input of RollbackWorkflow.run: the current compose file and an
optionally pre-supplied backup file, empty string when absent. -/
structure RollbackInputM where
  currentFile : String
  backupFile : String := ""

/-- File-system and activity results observed by one RollbackWorkflow run. -/
structure RollbackEnv where
  /-- Whether the backups directory next to the compose directory exists. -/
  backupDirExists : Bool
  /-- The yml files of the backups directory with their modification times. -/
  backupFiles : List (String × Nat)
  /-- Result string of teardown_compose. -/
  teardownResult : String
  /-- Result string of deploy_compose on the backup. -/
  deployResult : String
  /-- Result string of run_tests on the backup deployment. -/
  testsReport : String

/-- First element of a stable descending sort by modification time: the
first file attaining the maximal mtime, as picked by sorted(...)[0] with
reverse=True in RollbackWorkflow.run. -/
def latestBackup : List (String × Nat) → Option (String × Nat)
  | [] => none
  | f :: fs => some (fs.foldl (fun best c => if c.2 > best.2 then c else best) f)

/-- Step 2 of RollbackWorkflow.run: the backup target is the explicitly
supplied file when non-empty, otherwise the most recently modified yml
file of the backups directory when that directory exists and has one. -/
def resolveBackup (input : RollbackInputM) (env : RollbackEnv) : Option String :=
  if input.backupFile ≠ "" then some input.backupFile
  else if env.backupDirExists then (latestBackup env.backupFiles).map Prod.fst
  else none

/-- Terminal outcome of a RollbackWorkflow run. -/
inductive RollbackOutcome where
  | noBackup
  | critical
  | successful
deriving DecidableEq, Repr

/-- One RollbackWorkflow run: teardown, backup resolution, then either the
terminal no-backup failure notification, or deploy of the backup, tests,
and the report branch of line 279 choosing between the critical and the
successful message. -/
def rollbackRun (input : RollbackInputM) (env : RollbackEnv) :
    List WfStep × RollbackOutcome × String :=
  match resolveBackup input env with
  | none =>
      ([.teardown, .notify], .noBackup, "ROLLBACK FAILED: No backup file found")
  | some bf =>
      if testsFailCond env.testsReport then
        ([.teardown, .deployBackup, .runTests, .notify], .critical,
          "ROLLBACK CRITICAL: Backup deployment also failing!\nTeardown: " ++
            takeChars 100 env.teardownResult ++ "\nDeploy: " ++
            takeChars 100 env.deployResult ++ "\nTests: " ++
            takeChars 200 env.testsReport)
      else
        ([.teardown, .deployBackup, .runTests, .notify], .successful,
          "ROLLBACK SUCCESSFUL\nBackup: " ++ bf ++ "\nTeardown: " ++
            takeChars 100 env.teardownResult ++ "\nDeploy: " ++
            takeChars 100 env.deployResult ++ "\nTests: " ++
            takeChars 100 env.testsReport)

/- ── Health monitor loop: HealthMonitorWorkflow.run ──────────────── -/

/-- Externally visible notifications and invocations of one iteration of
the health monitor loop. -/
inductive MonEvent where
  | alert
  | diagnose
  | notifyDiagnosis
deriving DecidableEq, Repr

/-- One iteration of HealthMonitorWorkflow.run over the consecutive-failure
counter: on a failing check the counter increments, a first failure sends
the alert, and at three or more failures the diagnostic analysis runs, its
result is sent and the counter resets; on a successful check the counter
resets. Returns the new counter and the events of this iteration. -/
def monStep (failureCount : Nat) (hasFailures : Bool) : Nat × List MonEvent :=
  if hasFailures then
    let fc := failureCount + 1
    let evs := (if fc = 1 then [MonEvent.alert] else []) ++
      (if fc ≥ 3 then [MonEvent.diagnose, MonEvent.notifyDiagnosis] else [])
    (if fc ≥ 3 then 0 else fc, evs)
  else
    (0, [])

/-- The health monitor loop folded over a trace of per-iteration failure
flags, starting from a given counter: the per-iteration event lists and
the final counter. -/
def monRun (fc : Nat) : List Bool → List (List MonEvent) × Nat
  | [] => ([], fc)
  | b :: bs =>
      let s := monStep fc b
      let rest := monRun s.1 bs
      (s.2 :: rest.1, rest.2)

/- ── Specification compiler: src/tools/compose_tools.py ──────────── -/

/-- One entry of the json service list passed to compose_generate, before
any defaulting: a missing key is none or the empty list. The fields are
the ones svc.get reads. -/
structure RawService where
  name : Option String := none
  image : Option String := none
  ports : List String := []
  environment : List (String × String) := []
  volumes : List String := []
  command : Option String := none
  dependsOn : List String := []
deriving DecidableEq, Repr

/-- Effective service name: svc.get with default service. -/
def getName (r : RawService) : String := r.name.getD "service"

/-- Effective image: svc.get with default alpine latest. -/
def getImage (r : RawService) : String := r.image.getD "alpine:latest"

/-- The image key the detectors match against: lower-cased, tag stripped
after the first colon, registry path stripped up to the last slash. -/
def imageKey (image : String) : String :=
  ((splitStr '/' ((splitStr ':' (lowerStr image)).headD "")).getLastD "")

/-- Keys of SERVICE_DEFAULTS in dict insertion order. -/
def serviceDefaultKeys : List String :=
  ["nginx", "redis", "postgres", "mysql", "mariadb", "mongo",
   "elasticsearch", "rabbitmq"]

/-- The first known service type whose key occurs in the image key
(_detect_service_type). -/
def detectServiceType (image : String) : Option String :=
  serviceDefaultKeys.find? (fun t => subB t (imageKey image))

/-- SERVICE_ROLES table mapping known service types to roles. -/
def serviceRoles : List (String × String) :=
  [("postgres", "database"), ("mysql", "database"), ("mariadb", "database"),
   ("mongo", "database"), ("elasticsearch", "database"),
   ("redis", "cache"), ("rabbitmq", "queue"), ("nginx", "proxy")]

/-- BACKEND_PATTERNS list of application image name fragments. -/
def backendPatterns : List String :=
  ["python", "node", "golang", "java", "ruby", "php",
   "flask", "django", "express", "fastapi", "spring",
   "api", "backend", "app", "server", "web"]

/-- Role classification of one service (_detect_service_role): a known
service type with a role table entry wins, otherwise a backend pattern hit
on the image key makes it a backend, otherwise unknown. -/
def detectServiceRole (image : String) (svcType : Option String) : String :=
  match svcType with
  | some t =>
      match (serviceRoles.find? (fun p => p.1 == t)).map Prod.snd with
      | some role => role
      | none =>
          if backendPatterns.any (fun p => subB p (imageKey image)) then "backend"
          else "unknown"
  | none =>
      if backendPatterns.any (fun p => subB p (imageKey image)) then "backend"
      else "unknown"

/-- STAGE_ORDER lookup with dict default 2. -/
def stageOfRole (role : String) : Nat :=
  if role = "database" then 1
  else if role = "cache" then 1
  else if role = "queue" then 1
  else if role = "backend" then 2
  else if role = "proxy" then 3
  else 2

/-- One entry of services_info as built in pass 1 of compose_generate. -/
structure SInfo where
  name : String
  image : String
  svcType : Option String
  role : String
deriving DecidableEq, Repr

/-- Pass-1 record of one raw service. -/
def mkInfo (r : RawService) : SInfo :=
  { name := getName r, image := getImage r,
    svcType := detectServiceType (getImage r),
    role := detectServiceRole (getImage r) (detectServiceType (getImage r)) }

/-- Names collected per stage bucket by _auto_detect_dependencies, in input
order. -/
def byStageNames (info : List SInfo) (k : Nat) : List String :=
  (info.filter (fun i => stageOfRole i.role == k)).map SInfo.name

/-- A loop of dict assignments deps n = v for every n in names, as a
function update fold. -/
def assignAll (d : String → Option (List String)) (names : List String)
    (v : List String) : String → Option (List String) :=
  names.foldl (fun d n => Function.update d n (some v)) d

/-- The deps dict of _auto_detect_dependencies as a lookup function: the
stage-2 loop assigns the stage-1 names to every stage-2 name when stage 1
is non-empty; the stage-3 loop then assigns the stage-2 names, or the
stage-1 names when stage 2 is empty, to every stage-3 name. -/
def autoDeps (info : List SInfo) : String → Option (List String) :=
  let s1 := byStageNames info 1
  let s2 := byStageNames info 2
  let s3 := byStageNames info 3
  let d1 := if s1 = [] then (fun _ => none) else assignAll (fun _ => none) s2 s1
  if s2 ≠ [] then assignAll d1 s3 s2
  else if s1 ≠ [] then assignAll d1 s3 s1
  else d1

/-- Dependency list attached to one service in pass 2: the caller-supplied
depends_on when non-empty (each entry mapped to condition service_healthy),
otherwise the auto-detected entry when the deps dict has one, otherwise no
depends_on key. -/
def finalDeps (info : List SInfo) (r : RawService) : Option (List String) :=
  if r.dependsOn ≠ [] then some r.dependsOn
  else autoDeps info (getName r)

/-- The claim-relevant fields of one generated service definition: image,
restart policy, stage/role label and resolved dependency names (each
dependency carries condition service_healthy in the yaml); the healthcheck,
resource-limit, network, logging and volume fields of the source are not
needed by any claim and are not modelled. -/
structure CompiledService where
  image : String
  restart : String
  role : String
  stage : Nat
  stageLabel : String
  dependsOn : Option (List String)
  ports : List String
  environment : List (String × String)
  command : Option String
deriving DecidableEq, Repr

/-- Pass-2 compilation of one raw service against the whole list's pass-1
info. -/
def compileOne (info : List SInfo) (r : RawService) : CompiledService :=
  let i := mkInfo r
  let stage := stageOfRole i.role
  { image := i.image, restart := "unless-stopped", role := i.role,
    stage := stage, stageLabel := toString stage ++ "-" ++ i.role,
    dependsOn := finalDeps info r, ports := r.ports,
    environment := r.environment, command := r.command }

/-- Result of compose_generate: the error string returned on unparsable
json, or the written file with its generated services keyed by name in
input order. -/
inductive GenResult where
  | error (msg : String)
  | written (path : String) (services : List (String × CompiledService))
deriving DecidableEq, Repr

/-- compose_generate over the outcome of json.loads: a json decode error
aborts with the error message and nothing is written; otherwise both
passes run over the parsed list and the complete file is written under
compose_files. -/
def composeGenerate (parsed : Except String (List RawService))
    (outputFilename : String) : GenResult :=
  match parsed with
  | .error e => .error ("ERROR: Invalid JSON in services specification: " ++ e)
  | .ok svcList =>
      let info := svcList.map mkInfo
      .written ("compose_files/" ++ outputFilename)
        (svcList.map (fun r => (getName r, compileOne info r)))

/-- Service table of a generation result, none on error. -/
def planServices : GenResult → Option (List (String × CompiledService))
  | .error _ => none
  | .written _ svcs => some svcs

/-- Dict semantics of compose services keyed by name: the last entry with
the key wins, mirroring repeated dict assignment. -/
def planLookup (svcs : List (String × CompiledService)) (n : String) :
    Option CompiledService :=
  svcs.foldl (fun acc p => if p.1 == n then some p.2 else acc) none

/-- Whether a generation result is the error branch. -/
def isError : GenResult → Bool
  | .error _ => true
  | .written _ _ => false

/- ── Concrete scenario inputs ────────────────────────────────────── -/

/-- Scenario environment: one container web, running, with an unhealthy
health status; every other check observes healthy behaviour, so check 2
fails while checks 1 and 3 to 8 pass. -/
def env2 : TestEnv :=
  { psServices := ["web"], allContainers := ["web"], runningContainers := ["web"],
    health := fun _ => .unhealthy,
    ports := fun _ => [("8080", .opened)],
    ping := fun _ => .unreachable,
    mounts := fun _ => [],
    writable := fun _ _ => false,
    envRead := fun _ => some 10,
    logs := fun _ => "",
    stats := fun _ => some (1, 1) }

/-- Deploy-run activity results for the scenario: validation, backup, port
check and deploy all succeed, and the test report is the one produced by
the verification engine on env2. -/
def denv2 : DeployEnv :=
  { validation := "✓ Compose file is valid.",
    backupResult := "✓ Backup created",
    conflicts := "All ports free",
    deployResult := "✓ Services deployed successfully",
    testReport := fullReport env2 "2026-01-01 00:00:00" "compose_files/docker-compose.yml" }

/-- Rollback input for the scenarios: no explicitly supplied backup file. -/
def rinput2 : RollbackInputM :=
  { currentFile := "compose_files/docker-compose.yml" }

/-- Rollback-run environment for the critical scenario: a backup exists and
its redeployment produces the failing report of env2. -/
def renv2 : RollbackEnv :=
  { backupDirExists := true,
    backupFiles := [("docker-compose_backup_20260101_000000.yml", 5)],
    teardownResult := "✓ Services torn down",
    deployResult := "✓ Services deployed successfully",
    testsReport := fullReport env2 "2026-01-01 00:05:00" "backups/docker-compose_backup_20260101_000000.yml" }

/-- Rollback-run environment with an existing but empty backups directory. -/
def renvEmpty : RollbackEnv :=
  { backupDirExists := true, backupFiles := [],
    teardownResult := "✓ Services torn down",
    deployResult := "", testsReport := "" }

/-- Counterexample input for stage monotonicity: a database service with an
explicit dependency on the proxy service. -/
def c3rawDb : RawService :=
  { name := some "db", image := some "postgres:15", dependsOn := ["web"] }

/-- Counterexample input for stage monotonicity: a plain nginx proxy. -/
def c3rawWeb : RawService :=
  { name := some "web", image := some "nginx:latest" }

/-- Plan generated from the stage-monotonicity counterexample input. -/
def c3plan : GenResult :=
  composeGenerate (.ok [c3rawDb, c3rawWeb]) "docker-compose.yml"

/-- Duplicate-name counterexample input: a backend entry named x. -/
def c4dupA : RawService := { name := some "x", image := some "node:18" }

/-- Duplicate-name counterexample input: a database entry also named x. -/
def c4dupB : RawService := { name := some "x", image := some "postgres:15" }

/-- Witness input: a recognized cache image. -/
def rawRedis : RawService := { name := some "cache", image := some "redis:7" }

/-- Witness input: an application backend image. -/
def rawApi : RawService := { name := some "api", image := some "node:18" }

/-- Counterexample input for the empty-name claim: a service entry whose
name key is present and empty. -/
def emptyNameSvc : RawService :=
  { name := some "", image := some "nginx:latest" }

/-- Plan generated from the empty-name input. -/
def emptyNamePlan : GenResult :=
  composeGenerate (.ok [emptyNameSvc]) "docker-compose.yml"

/- ── Helper lemmas ───────────────────────────────────────────────── -/

/-- Every report of the verification engine contains PASS: its counts line
ends in N PASS / M WARN / K FAIL regardless of the counts. -/
theorem pass_in_report (env : TestEnv) (ts fp : String) :
    subB "PASS" (fullReport env ts fp) = true := by
  have h0 : subB "PASS" " PASS / " = true := by decide
  have h1 : subB "PASS" (("[TEST] Result: " ++ toString (passCount env)) ++ " PASS / ")
      = true := subB_append_left _ _ _ h0
  have h2 := subB_append_right _ _ (toString (warnCount env)) h1
  have h3 := subB_append_right _ _ " WARN / " h2
  have h4 := subB_append_right _ _ (toString (failCount env)) h3
  have h5 := subB_append_right _ _ " FAIL" h4
  have h6 := subB_append_left _ _ ("[" ++ ts ++ "] ") h5
  refine subB_strJoin "\n" "PASS" _ (reportLines env ts fp) ?_ h6
  simp [reportLines]

/-- Upper-cased reports also contain PASS. -/
theorem pass_in_upper_report (env : TestEnv) (ts fp : String) :
    subB "PASS" (upperStr (fullReport env ts fp)) = true :=
  subB_upper _ _ (by decide) (pass_in_report env ts fp)

/-- The test-failure condition of workflows.py lines 120 and 279 is false on
every report the verification engine can produce, because every report
contains the PASS token in its counts line. -/
theorem testsFailCond_report (env : TestEnv) (ts fp : String) :
    testsFailCond (fullReport env ts fp) = false := by
  unfold testsFailCond
  rw [pass_in_upper_report env ts fp]
  simp

/-- The three per-status counters of a status list sum to its length. -/
theorem status_count_sum (s : List Status) :
    s.count .pass + s.count .warn + s.count .fail = s.length := by
  induction s with
  | nil => simp
  | cons a t ih => cases a <;> simp [List.count_cons] <;> omega

/-- Characterization of the final-verdict branch of run_post_deploy_tests
over the counters of an arbitrary status list. -/
theorem verdictOfCounts_spec (s : List Status) :
    (verdictOfCounts (s.count .pass) (s.count .warn) (s.count .fail) = .failed
      ↔ Status.fail ∈ s)
    ∧ (verdictOfCounts (s.count .pass) (s.count .warn) (s.count .fail)
        = .acceptedWithWarnings ↔ Status.fail ∉ s ∧ Status.warn ∈ s)
    ∧ (verdictOfCounts (s.count .pass) (s.count .warn) (s.count .fail) = .successful
      ↔ Status.fail ∉ s ∧ Status.warn ∉ s) := by
  by_cases hf : Status.fail ∈ s
  · have hpos : 0 < s.count Status.fail := List.count_pos_iff.mpr hf
    unfold verdictOfCounts
    rw [if_pos hpos]
    exact ⟨by simp [hf], by simp [hf], by simp [hf]⟩
  · have hcf : s.count Status.fail = 0 := List.count_eq_zero.mpr hf
    by_cases hw : Status.warn ∈ s
    · have hwpos : 0 < s.count Status.warn := List.count_pos_iff.mpr hw
      unfold verdictOfCounts
      rw [hcf, if_neg (by omega), if_pos hwpos]
      exact ⟨by simp [hf, hw], by simp [hf, hw], by simp [hf, hw]⟩
    · have hcw : s.count Status.warn = 0 := List.count_eq_zero.mpr hw
      unfold verdictOfCounts
      rw [hcf, hcw, if_neg (by omega), if_neg (by omega)]
      exact ⟨by simp [hf, hw], by simp [hf, hw], by simp [hf, hw]⟩

/- ── Claim theorems ──────────────────────────────────────────────── -/

/-- C2: for every run of the verification engine, the eight per-check
statuses aggregate to FAILED iff at least one check is FAIL, else to
ACCEPTED WITH WARNINGS iff at least one check is WARN, else to SUCCESSFUL. -/
theorem verdict_aggregation (env : TestEnv) :
    (checkStatuses env).length = 8
    ∧ (reportVerdict env = Verdict.failed ↔ Status.fail ∈ checkStatuses env)
    ∧ (reportVerdict env = Verdict.acceptedWithWarnings ↔
        Status.fail ∉ checkStatuses env ∧ Status.warn ∈ checkStatuses env)
    ∧ (reportVerdict env = Verdict.successful ↔
        Status.fail ∉ checkStatuses env ∧ Status.warn ∉ checkStatuses env) := by
  obtain ⟨h1, h2, h3⟩ := verdictOfCounts_spec (checkStatuses env)
  exact ⟨rfl, h1, h2, h3⟩

/-- C10: every run of the verification engine produces exactly one verdict
per check — eight statuses in total — and the three counters always sum to
8, whatever the docker environment does. -/
theorem report_exactly_eight_checks (env : TestEnv) :
    (checkStatuses env).length = 8
    ∧ passCount env + warnCount env + failCount env = 8 := by
  refine ⟨rfl, ?_⟩
  have h := status_count_sum (checkStatuses env)
  have hlen : (checkStatuses env).length = 8 := rfl
  rw [hlen] at h
  exact h

/-- C6 counterexample: the backup step of DeployWorkflow.run carries no
retry policy at all, so validate and backup do not both retry up to 2
attempts. -/
theorem backup_retry_missing :
    ¬ (validateCall.retryMaximumAttempts = some 2 ∧
        backupCall.retryMaximumAttempts = some 2) := by decide

/-- C6 amended: the validate and deploy steps carry a retry policy capped
at 2 attempts; the backup, conflict-detection and test steps carry none
(Temporal default applies), and the deploy and test steps carry heartbeat
timeouts instead. -/
theorem retry_policies :
    validateCall.retryMaximumAttempts = some 2
    ∧ deployCall.retryMaximumAttempts = some 2
    ∧ backupCall.retryMaximumAttempts = none
    ∧ detectConflictsCall.retryMaximumAttempts = none
    ∧ runTestsCall.retryMaximumAttempts = none
    ∧ deployCall.heartbeatSec = some 60
    ∧ runTestsCall.heartbeatSec = some 120 := by decide

/-- C1 (code bug): the verdict-FAILED branch of DeployWorkflow step 5 is
unreachable. The rollback trigger requires the report to contain FAIL and
not contain PASS, but every engine report contains PASS in its counts
line; concretely, with check 2 unhealthy and all other checks PASS the
aggregate verdict is FAILED, yet the deploy run ends Succeeded and never
invokes the rollback child workflow. -/
theorem deploy_failed_verdict_no_rollback :
    (∀ (env : TestEnv) (ts fp : String), testsFailCond (fullReport env ts fp) = false)
    ∧ (checkStatuses env2)[1]? = some Status.fail
    ∧ reportVerdict env2 = Verdict.failed
    ∧ deployDecision denv2 = DeployOutcome.succeeded
    ∧ WfStep.childRollback ∉ deployTrace denv2 :=
  ⟨testsFailCond_report, by decide, by decide, by decide, by decide⟩

/-- C8 (code bug): the rollback-critical branch of RollbackWorkflow step 5
is unreachable on any report the verification engine can produce, because
the branch condition requires the report not to contain PASS; concretely,
with the backup redeployment verifying as FAILED the run still reports the
normal success message. -/
theorem rollback_critical_never_reported :
    (∀ (inp : RollbackInputM) (re : RollbackEnv) (env : TestEnv) (ts fp : String),
      (rollbackRun inp { re with testsReport := fullReport env ts fp }).2.1 ≠
        RollbackOutcome.critical)
    ∧ reportVerdict env2 = Verdict.failed
    ∧ (rollbackRun rinput2 renv2).2.1 = RollbackOutcome.successful := by
  refine ⟨?_, by decide, by decide⟩
  intro inp re env ts fp
  cases hres : resolveBackup inp { re with testsReport := fullReport env ts fp } with
  | none => simp [rollbackRun, hres]
  | some bf => simp [rollbackRun, hres, testsFailCond_report]

/-- First element of the descending mtime sort: it belongs to the file list
and its mtime dominates every file's mtime. -/
theorem pickLatest_foldl (fs : List (String × Nat)) (best : String × Nat) :
    (fs.foldl (fun best c => if c.2 > best.2 then c else best) best) ∈ best :: fs
    ∧ best.2 ≤ (fs.foldl (fun best c => if c.2 > best.2 then c else best) best).2
    ∧ ∀ p ∈ fs, p.2 ≤ (fs.foldl (fun best c => if c.2 > best.2 then c else best) best).2 := by
  induction fs generalizing best with
  | nil => simp
  | cons c cs ih =>
    simp only [List.foldl_cons]
    by_cases hc : c.2 > best.2
    · rw [if_pos hc]
      obtain ⟨hmem, hle, hall⟩ := ih c
      refine ⟨List.mem_cons_of_mem _ hmem, le_trans (le_of_lt hc) hle, ?_⟩
      intro p hp
      rcases List.mem_cons.mp hp with rfl | hp2
      · exact hle
      · exact hall p hp2
    · rw [if_neg hc]
      obtain ⟨hmem, hle, hall⟩ := ih best
      refine ⟨?_, hle, ?_⟩
      · rcases List.mem_cons.mp hmem with heq | hm
        · rw [heq]
          exact List.mem_cons_self _ _
        · exact List.mem_cons_of_mem _ (List.mem_cons_of_mem _ hm)
      · intro p hp
        rcases List.mem_cons.mp hp with rfl | hp2
        · exact le_trans (Nat.le_of_not_lt hc) hle
        · exact hall p hp2

/-- The backup picked by latestBackup is a member of the directory listing
with maximal modification time. -/
theorem latestBackup_spec (files : List (String × Nat)) (f : String) (m : Nat)
    (h : latestBackup files = some (f, m)) :
    (f, m) ∈ files ∧ ∀ p ∈ files, p.2 ≤ m := by
  cases files with
  | nil => simp [latestBackup] at h
  | cons f0 fs =>
    simp only [latestBackup, Option.some.injEq] at h
    obtain ⟨hmem, hle, hall⟩ := pickLatest_foldl fs f0
    rw [h] at hmem hle hall
    refine ⟨hmem, ?_⟩
    intro p hp
    rcases List.mem_cons.mp hp with rfl | hp2
    · exact hle
    · exact hall p hp2

/-- C7: with no explicitly supplied backup, the Rollback Resolver picks a
backup file of maximal modification time from the backup directory, and
when the directory is missing or empty it resolves nothing, sends the
terminal failure notification, and ends without deploying or testing. -/
theorem rollback_backup_resolution (input : RollbackInputM) (env : RollbackEnv)
    (hb : input.backupFile = "") :
    (∀ f, resolveBackup input env = some f →
      ∃ m, (f, m) ∈ env.backupFiles ∧ ∀ p ∈ env.backupFiles, p.2 ≤ m)
    ∧ (env.backupFiles = [] ∨ env.backupDirExists = false →
        resolveBackup input env = none)
    ∧ (resolveBackup input env = none →
        rollbackRun input env =
          ([WfStep.teardown, WfStep.notify], RollbackOutcome.noBackup,
            "ROLLBACK FAILED: No backup file found")
        ∧ WfStep.deployBackup ∉ (rollbackRun input env).1
        ∧ WfStep.runTests ∉ (rollbackRun input env).1) := by
  have hres : resolveBackup input env =
      if env.backupDirExists then (latestBackup env.backupFiles).map Prod.fst
      else none := by
    simp [resolveBackup, hb]
  refine ⟨?_, ?_, ?_⟩
  · intro f hf
    rw [hres] at hf
    by_cases hd : env.backupDirExists
    · rw [if_pos hd] at hf
      cases hlb : latestBackup env.backupFiles with
      | none => rw [hlb] at hf; simp at hf
      | some p =>
        rw [hlb] at hf
        simp at hf
        obtain ⟨hmem, hall⟩ := latestBackup_spec env.backupFiles p.1 p.2 (by simpa using hlb)
        exact ⟨p.2, by rwa [hf] at hmem, hall⟩
    · rw [if_neg hd] at hf
      simp at hf
  · intro h
    rw [hres]
    rcases h with h | h
    · simp [h, latestBackup]
    · simp [h]
  · intro h
    refine ⟨by simp [rollbackRun, h], ?_, ?_⟩ <;> simp [rollbackRun, h]

/-- Witness for the backup-resolution theorem: an empty backup directory
means the run ends with the terminal failure message after teardown and
notification only. -/
theorem rollback_backup_resolution_witness :
    rinput2.backupFile = "" ∧
    rollbackRun rinput2 renvEmpty =
      ([WfStep.teardown, WfStep.notify], RollbackOutcome.noBackup,
        "ROLLBACK FAILED: No backup file found") :=
  ⟨rfl, ((rollback_backup_resolution rinput2 renvEmpty rfl).2.2 (by decide)).1⟩

/-- The consecutive-failure counter never exceeds 2 between iterations when
it starts at most at 2, because reaching 3 resets it. -/
theorem monRun_counter_le (trace : List Bool) :
    ∀ fc, fc ≤ 2 → (monRun fc trace).2 ≤ 2 := by
  induction trace with
  | nil =>
    intro fc h
    simpa [monRun] using h
  | cons b bs ih =>
    intro fc h
    have hstep : (monStep fc b).1 ≤ 2 := by
      cases b <;> simp [monStep] <;> split <;> omega
    simpa [monRun] using ih (monStep fc b).1 hstep

/-- Every diagnostic invocation consumes three failures: three times the
number of diagnose events of a run is bounded by the starting counter plus
the number of failing iterations of the trace. -/
theorem monRun_diag_bound (trace : List Bool) :
    ∀ fc, 3 * ((monRun fc trace).1.map (fun evs => evs.count MonEvent.diagnose)).sum
      ≤ fc + trace.count true := by
  induction trace with
  | nil => intro fc; simp [monRun]
  | cons b bs ih =>
    intro fc
    cases b with
    | false =>
      have hstep : monStep fc false = (0, []) := by simp [monStep]
      have h := ih 0
      simp only [monRun, hstep, List.map_cons, List.sum_cons, List.count_cons]
      simpa using Nat.le_trans h (by omega)
    | true =>
      have e1 : List.count MonEvent.diagnose
          [MonEvent.diagnose, MonEvent.notifyDiagnosis] = 1 := by decide
      have ec : (true :: bs).count true = bs.count true + 1 := by
        simp [List.count_cons]
      by_cases h3 : 3 ≤ fc + 1
      · have h1 : ¬ fc + 1 = 1 := by omega
        have hstep : monStep fc true =
            (0, [MonEvent.diagnose, MonEvent.notifyDiagnosis]) := by
          simp [monStep, h3, h1]
        have h := ih 0
        simp only [monRun, hstep, List.map_cons, List.sum_cons, e1, ec]
        omega
      · have hctr : (monStep fc true).1 = fc + 1 := by
          simp [monStep, h3]
        have hcnt : (monStep fc true).2.count MonEvent.diagnose = 0 := by
          have h1c : ¬ fc + 1 ≥ 3 := h3
          by_cases h1 : fc + 1 = 1 <;> simp [monStep, h1, h1c]
        have h := ih (fc + 1)
        simp only [monRun, List.map_cons, List.sum_cons, hcnt, hctr, ec]
        omega

/-- C9: health-monitor counter semantics — a successful check resets the
counter and emits nothing; a failing check sends the alert exactly when the
streak counter was zero; the diagnostic step and its notification fire
exactly when the counter reaches 3, and reset it; the counter never
exceeds 2 between iterations, each diagnostic consumes three failures, and
the three-failure scenario produces exactly one alert after iteration 1
and one diagnostic after iteration 3 with the counter back at zero. -/
theorem health_monitor_escalation :
    (∀ fc, monStep fc false = (0, []))
    ∧ (∀ fc, (monStep fc true).2.count MonEvent.alert = if fc = 0 then 1 else 0)
    ∧ (∀ fc, (monStep fc true).2.count MonEvent.diagnose = if 2 ≤ fc then 1 else 0)
    ∧ monStep 2 true = (0, [MonEvent.diagnose, MonEvent.notifyDiagnosis])
    ∧ (∀ trace, (monRun 0 trace).2 ≤ 2)
    ∧ (∀ fc trace,
        3 * ((monRun fc trace).1.map (fun evs => evs.count MonEvent.diagnose)).sum
          ≤ fc + trace.count true)
    ∧ monRun 0 [true, true, true] =
        ([[MonEvent.alert], [], [MonEvent.diagnose, MonEvent.notifyDiagnosis]], 0) := by
  refine ⟨fun fc => by simp [monStep], ?_, ?_, by decide,
    fun trace => monRun_counter_le trace 0 (by omega),
    fun fc trace => monRun_diag_bound trace fc, by decide⟩
  · intro fc
    by_cases h0 : fc = 0
    · subst h0; decide
    · have h1 : ¬ fc + 1 = 1 := by omega
      by_cases h3 : 3 ≤ fc + 1 <;> simp [monStep, h1, h3, h0]
  · intro fc
    by_cases h3 : 3 ≤ fc + 1
    · have h1 : ¬ fc + 1 = 1 := by omega
      have h2 : 2 ≤ fc := by omega
      simp [monStep, h1, h3, h2]
    · have h2 : ¬ 2 ≤ fc := by omega
      by_cases h1 : fc + 1 = 1 <;> simp [monStep, h1, h3, h2]

/-- A loop of identical dict assignments behaves as a membership test. -/
theorem assignAll_eq (d : String → Option (List String)) (names : List String)
    (v : List String) (n : String) :
    assignAll d names v n = if n ∈ names then some v else d n := by
  induction names generalizing d with
  | nil => simp [assignAll]
  | cons m ms ih =>
    have hstep : assignAll d (m :: ms) v = assignAll (Function.update d m (some v)) ms v :=
      rfl
    rw [hstep, ih]
    by_cases hms : n ∈ ms
    · simp [hms, List.mem_cons]
    · by_cases hm : n = m
      · simp [hms, hm, Function.update_apply]
      · simp [hms, hm, Function.update_apply, List.mem_cons]

/-- Membership in a stage bucket of _auto_detect_dependencies. -/
theorem mem_byStageNames {info : List SInfo} {k : Nat} {n : String} :
    n ∈ byStageNames info k ↔ ∃ i, i ∈ info ∧ stageOfRole i.role = k ∧ i.name = n := by
  unfold byStageNames
  simp only [List.mem_map, List.mem_filter, beq_iff_eq]
  constructor
  · rintro ⟨i, ⟨hi, hk⟩, hn⟩
    exact ⟨i, hi, hk, hn⟩
  · rintro ⟨i, hi, hk, hn⟩
    exact ⟨i, ⟨hi, hk⟩, hn⟩

/-- Pointwise value of the auto-detected dependency dict: stage-3 names map
to the stage-2 bucket, or the stage-1 bucket when stage 2 is empty;
stage-2 names map to the stage-1 bucket; everything else is absent. -/
theorem autoDeps_apply (info : List SInfo) (n : String) :
    autoDeps info n =
      if byStageNames info 2 ≠ [] ∧ n ∈ byStageNames info 3 then
        some (byStageNames info 2)
      else if byStageNames info 2 = [] ∧ byStageNames info 1 ≠ [] ∧
          n ∈ byStageNames info 3 then
        some (byStageNames info 1)
      else if byStageNames info 1 ≠ [] ∧ n ∈ byStageNames info 2 then
        some (byStageNames info 1)
      else none := by
  unfold autoDeps
  by_cases h1 : byStageNames info 1 = [] <;>
    by_cases h2 : byStageNames info 2 = [] <;>
      by_cases h3 : n ∈ byStageNames info 3 <;>
        by_cases h2m : n ∈ byStageNames info 2 <;>
          simp_all [assignAll_eq]

/-- With pairwise-distinct service names, a pass-1 info record sharing a
raw service's name is that service's record. -/
theorem info_name_unique (svcList : List RawService)
    (hnd : (svcList.map getName).Nodup) (i : SInfo) (hi : i ∈ svcList.map mkInfo)
    (t : RawService) (ht : t ∈ svcList) (h : i.name = getName t) : i = mkInfo t := by
  obtain ⟨u, hu, rfl⟩ := List.mem_map.mp hi
  have hgu : getName u = getName t := h
  have := List.inj_on_of_nodup_map hnd hu ht hgu
  rw [this]

/-- With pairwise-distinct service names, membership of a service's name in
a stage bucket determines that service's stage. -/
theorem stage_of_name (svcList : List RawService)
    (hnd : (svcList.map getName).Nodup) (t : RawService) (ht : t ∈ svcList)
    (k : Nat) (h : getName t ∈ byStageNames (svcList.map mkInfo) k) :
    stageOfRole (mkInfo t).role = k := by
  obtain ⟨i, hi, hk, hn⟩ := mem_byStageNames.mp h
  have heq := info_name_unique svcList hnd i hi t ht hn
  rw [heq] at hk
  exact hk

/-- C3 counterexample: a database service with an explicit dependency on
the proxy service compiles into a plan in which the stage-1 service db
depends on the stage-3 service web, so the compiler does produce a plan
with a dependency on an equal-or-higher stage. -/
theorem stage_monotonic_counterexample :
    ((planServices c3plan).bind (fun s => planLookup s "db")).map CompiledService.stage
      = some 1
    ∧ ((planServices c3plan).bind (fun s => planLookup s "db")).map
        CompiledService.dependsOn = some (some ["web"])
    ∧ ((planServices c3plan).bind (fun s => planLookup s "web")).map
        CompiledService.stage = some 3 := by decide

/-- C3 amended: for service lists with pairwise-distinct names, every
auto-inferred dependency (of a service without a caller-supplied explicit
list) points to a service of strictly lower stage; caller-supplied
explicit dependency lists are inserted verbatim and are not checked. -/
theorem auto_inferred_deps_stage_monotonic (svcList : List RawService)
    (hnd : (svcList.map getName).Nodup)
    (r : RawService) (hr : r ∈ svcList) (hexp : r.dependsOn = [])
    (ds : List String) (hds : finalDeps (svcList.map mkInfo) r = some ds)
    (d : String) (hd : d ∈ ds)
    (t : RawService) (ht : t ∈ svcList) (hname : getName t = d) :
    stageOfRole (mkInfo t).role < stageOfRole (mkInfo r).role := by
  have hauto : autoDeps (svcList.map mkInfo) (getName r) = some ds := by
    simpa [finalDeps, hexp] using hds
  rw [autoDeps_apply] at hauto
  split_ifs at hauto with hA hB hC
  · have hr3 := stage_of_name svcList hnd r hr 3 hA.2
    have hds2 : ds = byStageNames (svcList.map mkInfo) 2 :=
      (Option.some.inj hauto).symm
    have ht2 := stage_of_name svcList hnd t ht 2 (by rw [hname]; rw [hds2] at hd; exact hd)
    rw [ht2, hr3]
    omega
  · have hr3 := stage_of_name svcList hnd r hr 3 hB.2.2
    have hds1 : ds = byStageNames (svcList.map mkInfo) 1 :=
      (Option.some.inj hauto).symm
    have ht1 := stage_of_name svcList hnd t ht 1 (by rw [hname]; rw [hds1] at hd; exact hd)
    rw [ht1, hr3]
    omega
  · have hr2 := stage_of_name svcList hnd r hr 2 hC.2
    have hds1 : ds = byStageNames (svcList.map mkInfo) 1 :=
      (Option.some.inj hauto).symm
    have ht1 := stage_of_name svcList hnd t ht 1 (by rw [hname]; rw [hds1] at hd; exact hd)
    rw [ht1, hr2]
    omega

/-- Witness for the amended stage-monotonicity theorem: in a cache plus
backend list the backend's inferred dependency on the cache goes from
stage 2 down to stage 1. -/
theorem auto_inferred_deps_stage_monotonic_witness :
    ([rawRedis, rawApi].map getName).Nodup
    ∧ rawApi.dependsOn = []
    ∧ finalDeps ([rawRedis, rawApi].map mkInfo) rawApi = some ["cache"]
    ∧ stageOfRole (mkInfo rawRedis).role < stageOfRole (mkInfo rawApi).role :=
  ⟨by decide, rfl, by decide,
    auto_inferred_deps_stage_monotonic [rawRedis, rawApi] (by decide) rawApi
      (by decide) rfl ["cache"] (by decide) "cache" (by decide) rawRedis
      (by decide) rfl⟩

/-- C4 counterexample: with two entries sharing the name x — a backend and
a database — the deps dict keyed by name aliases them, and the stage-1
database entry with no caller-supplied dependency list receives an
inferred dependency (on its own name), so inference is not used as
described for every input list. -/
theorem inference_duplicate_name_counterexample :
    stageOfRole (mkInfo c4dupB).role = 1
    ∧ c4dupB.dependsOn = []
    ∧ finalDeps ([c4dupA, c4dupB].map mkInfo) c4dupB = some ["x"] := by decide

/-- C4 amended: for service lists with pairwise-distinct names, a service
with a caller-supplied explicit dependency list gets exactly that list and
inference is skipped for it; any other stage-2 service depends on all
stage-1 services present (none when there are none); any other stage-3
service depends on all stage-2 services present, or on all stage-1
services when no stage-2 service exists; stage-1 services get no inferred
dependencies. -/
theorem dependency_inference_exact (svcList : List RawService)
    (hnd : (svcList.map getName).Nodup) (r : RawService) (hr : r ∈ svcList) :
    (r.dependsOn ≠ [] → finalDeps (svcList.map mkInfo) r = some r.dependsOn)
    ∧ (r.dependsOn = [] → stageOfRole (mkInfo r).role = 1 →
        finalDeps (svcList.map mkInfo) r = none)
    ∧ (r.dependsOn = [] → stageOfRole (mkInfo r).role = 2 →
        finalDeps (svcList.map mkInfo) r =
          if byStageNames (svcList.map mkInfo) 1 = [] then none
          else some (byStageNames (svcList.map mkInfo) 1))
    ∧ (r.dependsOn = [] → stageOfRole (mkInfo r).role = 3 →
        finalDeps (svcList.map mkInfo) r =
          if byStageNames (svcList.map mkInfo) 2 ≠ [] then
            some (byStageNames (svcList.map mkInfo) 2)
          else if byStageNames (svcList.map mkInfo) 1 ≠ [] then
            some (byStageNames (svcList.map mkInfo) 1)
          else none) := by
  have hmem : ∀ k, getName r ∈ byStageNames (svcList.map mkInfo) k ↔
      stageOfRole (mkInfo r).role = k := by
    intro k
    constructor
    · exact fun h => stage_of_name svcList hnd r hr k h
    · intro hk
      exact mem_byStageNames.mpr ⟨mkInfo r, List.mem_map_of_mem _ hr, hk, rfl⟩
  refine ⟨?_, ?_, ?_, ?_⟩
  · intro hexp
    simp [finalDeps, hexp]
  · intro hexp hst
    have h2 : getName r ∉ byStageNames (svcList.map mkInfo) 2 := by
      rw [hmem 2, hst]; omega
    have h3 : getName r ∉ byStageNames (svcList.map mkInfo) 3 := by
      rw [hmem 3, hst]; omega
    simp [finalDeps, hexp, autoDeps_apply, h2, h3]
  · intro hexp hst
    have h2 : getName r ∈ byStageNames (svcList.map mkInfo) 2 := (hmem 2).mpr hst
    have h3 : getName r ∉ byStageNames (svcList.map mkInfo) 3 := by
      rw [hmem 3, hst]; omega
    by_cases h1 : byStageNames (svcList.map mkInfo) 1 = [] <;>
      simp [finalDeps, hexp, autoDeps_apply, h1, h2, h3]
  · intro hexp hst
    have h2 : getName r ∉ byStageNames (svcList.map mkInfo) 2 := by
      rw [hmem 2, hst]; omega
    have h3 : getName r ∈ byStageNames (svcList.map mkInfo) 3 := (hmem 3).mpr hst
    by_cases hb2 : byStageNames (svcList.map mkInfo) 2 = [] <;>
      by_cases hb1 : byStageNames (svcList.map mkInfo) 1 = [] <;>
        simp [finalDeps, hexp, autoDeps_apply, hb1, hb2, h2, h3]

/-- Witness for the dependency-inference theorem: in a cache plus backend
list, the backend (stage 2, no explicit list) gets exactly the stage-1
bucket, which is the cache service. -/
theorem dependency_inference_exact_witness :
    ([rawRedis, rawApi].map getName).Nodup
    ∧ rawApi ∈ [rawRedis, rawApi]
    ∧ finalDeps ([rawRedis, rawApi].map mkInfo) rawApi =
        if byStageNames ([rawRedis, rawApi].map mkInfo) 1 = [] then none
        else some (byStageNames ([rawRedis, rawApi].map mkInfo) 1) :=
  ⟨by decide, by decide,
    (dependency_inference_exact [rawRedis, rawApi] (by decide) rawApi
      (by decide)).2.2.1 rfl (by decide)⟩

/-- C5 counterexample: a service entry whose name is present and empty is
accepted without any compilation error — the plan is written with the
empty string as the service key. -/
theorem empty_name_accepted :
    isError emptyNamePlan = false
    ∧ (planServices emptyNamePlan).map (List.map Prod.fst) = some [""] := by decide

/-- C5 amended: unparsable json input yields a compilation error and no
plan is written; every successfully parsed service list yields a complete
written plan with one generated service per input entry, keyed by the
effective names (a missing name defaults to service; an empty name is
accepted as-is). -/
theorem compiler_fails_closed :
    (∀ e fn, composeGenerate (.error e) fn =
      .error ("ERROR: Invalid JSON in services specification: " ++ e))
    ∧ (∀ e fn, planServices (composeGenerate (.error e) fn) = none)
    ∧ (∀ (l : List RawService) fn,
        (planServices (composeGenerate (.ok l) fn)).map List.length = some l.length)
    ∧ (∀ (l : List RawService) fn,
        (planServices (composeGenerate (.ok l) fn)).map (List.map Prod.fst)
          = some (l.map getName)) := by
  refine ⟨fun e fn => rfl, fun e fn => rfl, fun l fn => ?_, fun l fn => ?_⟩
  · simp [composeGenerate, planServices]
  · simp [composeGenerate, planServices, List.map_map, Function.comp]

end MultiContainer

